import Mathlib

/-!
Verification development for the EFactureExpressUI client.

The embedding translates the TypeScript source into Lean:
JavaScript numbers are modelled as rationals (ℚ), roles are runtime strings,
invoice statuses are the numeric codes 0..4 used by the source
(`src/domains/invoices/utils/invoice.permissions.ts`), and the optimistic
cache handlers of `src/App.tsx` become pure state-transition functions whose
transport outcome is an explicit `HttpResponse` argument.
-/

namespace EFacture

/-! ## Status transition policy (invoice.permissions.ts) -/

/-- Invoice status codes from `INVOICE_STATUS`:
Draft = 0, Ready = 1, AwaitingClearance = 2, Validated = 3, Rejected = 4.
The TypeScript values are JS numbers, so we keep them as ℚ. -/
def DRAFT : ℚ := 0

def READY : ℚ := 1

def AWAITING_CLEARANCE : ℚ := 2

def VALIDATED : ℚ := 3

def REJECTED : ℚ := 4

/-- Function `canModifyInvoice` from invoice.permissions.ts lines 21-37: Clerks only
Draft; Manager/Admin also Ready and Rejected; any other role false. -/
def canModifyInvoice (userRole : String) (invoiceStatus : ℚ) : Bool :=
  if userRole = "Clerk" then
    decide (invoiceStatus = DRAFT)
  else if userRole = "Manager" ∨ userRole = "Admin" then
    decide (invoiceStatus = DRAFT ∨ invoiceStatus = READY ∨ invoiceStatus = REJECTED)
  else
    false

/-- Function `canDeleteInvoice` (lines 39-42): same rules as modify. -/
def canDeleteInvoice (userRole : String) (invoiceStatus : ℚ) : Bool :=
  canModifyInvoice userRole invoiceStatus

/-- Function `canChangeInvoiceStatus` (lines 44-60). -/
def canChangeInvoiceStatus (userRole : String) (invoiceStatus : ℚ) : Bool :=
  if userRole = "Clerk" then
    false
  else if userRole = "Manager" ∨ userRole = "Admin" then
    decide (invoiceStatus = DRAFT ∨ invoiceStatus = READY ∨ invoiceStatus = REJECTED)
  else
    false

/-- Function `canSubmitInvoice` (lines 62-66): Manager/Admin, only Ready. -/
def canSubmitInvoice (userRole : String) (invoiceStatus : ℚ) : Bool :=
  decide ((userRole = "Manager" ∨ userRole = "Admin") ∧ invoiceStatus = READY)

/-- Function `getValidStatusTransitions` (lines 80-110).  The only role test is the
early Clerk return; every other role string reaches the status switch. -/
def getValidStatusTransitions (userRole : String) (currentStatus : ℚ) : List ℚ :=
  if userRole = "Clerk" then
    [currentStatus]
  else if currentStatus = DRAFT then
    [DRAFT, READY]
  else if currentStatus = READY then
    [DRAFT, READY]
  else if currentStatus = AWAITING_CLEARANCE then
    [AWAITING_CLEARANCE]
  else if currentStatus = VALIDATED then
    [VALIDATED]
  else if currentStatus = REJECTED then
    [DRAFT, REJECTED]
  else
    [currentStatus]

/-- Function `canTransitionToStatus` (lines 112-119): `validTransitions.includes(target)`. -/
def canTransitionToStatus (userRole : String) (currentStatus targetStatus : ℚ) : Bool :=
  decide (targetStatus ∈ getValidStatusTransitions userRole currentStatus)

/-! ## Monetary totals (QuoteForm `computeTotals`) -/

/-- A draft line item as edited in the form; `taxRate` is optional in the
source and defaulted to 20 via `?? 20` inside `computeTotals`. -/
structure NewLine where
  description : String
  quantity : ℚ
  unitPrice : ℚ
  taxRate : Option ℚ
deriving DecidableEq, Repr

/-- The raw (unrounded) subtotal: `lines.reduce((sum, ln) => sum + ln.quantity * ln.unitPrice, 0)`. -/
def rawSubTotal (lines : List NewLine) : ℚ :=
  lines.foldl (fun sum ln => sum + ln.quantity * ln.unitPrice) 0

/-- The raw (unrounded) tax: `lines.reduce((sum, ln) => sum + ln.quantity * ln.unitPrice * (ln.taxRate ?? 20) / 100, 0)`. -/
def rawVat (lines : List NewLine) : ℚ :=
  lines.foldl (fun sum ln => sum + ln.quantity * ln.unitPrice * (ln.taxRate.getD 20) / 100) 0

/-- Rounding to two decimal places, the idealisation of `+x.toFixed(2)`. -/
def round2 (x : ℚ) : ℚ :=
  ((round (100 * x) : ℤ) : ℚ) / 100

/-- Result record of `computeTotals`. -/
structure Totals where
  subTotal : ℚ
  vat : ℚ
  total : ℚ
deriving DecidableEq, Repr

/-- Function `computeTotals` from the quote form (unnamed part_000 lines 148-158):
each component is rounded independently, and `total` rounds the sum of the
two *raw* accumulators, not the sum of the rounded components. -/
def computeTotals (lines : List NewLine) : Totals :=
  { subTotal := round2 (rawSubTotal lines)
    vat := round2 (rawVat lines)
    total := round2 (rawSubTotal lines + rawVat lines) }

/-! ## Record cache data model (App.tsx state) -/

/-- A cached invoice line (`Invoice.lines` elements).  Temporary line ids are
`Date.now() + Math.random()`, a fractional JS number, hence `id : ℚ`. -/
structure InvoiceLine where
  id : ℚ
  description : String
  quantity : ℚ
  unitPrice : ℚ
  total : ℚ
  invoiceId : ℚ
  taxRate : Option ℚ
deriving DecidableEq, Repr

/-- A cached invoice record.  The nested `customer` object is flattened to
its two fields; presentation-only metadata (`createdAt`, `createdBy`) is
omitted as it never influences the cache logic. -/
structure Invoice where
  id : ℚ
  invoiceNumber : String
  date : String
  customerId : ℚ
  customerName : String
  subTotal : ℚ
  vat : ℚ
  total : ℚ
  status : ℚ
  lines : List InvoiceLine
deriving DecidableEq, Repr

/-- A draft line inside a `NewInvoice` payload. -/
structure NewInvoiceLine where
  description : String
  quantity : ℚ
  unitPrice : ℚ
  taxRate : Option ℚ
deriving DecidableEq, Repr

/-- The `NewInvoice` payload sent to create/update. -/
structure NewInvoice where
  id : Option ℚ
  invoiceNumber : String
  date : String
  customerId : ℚ
  subTotal : ℚ
  vat : ℚ
  total : ℚ
  status : ℚ
  lines : List NewInvoiceLine
deriving DecidableEq, Repr

/-- Pagination metadata of the server list payload.  All four fields are JS
numbers in the source (`invoiceListData.pagination`). -/
structure Pagination where
  page : ℚ
  pageSize : ℚ
  totalItems : ℚ
  totalPages : ℚ
deriving DecidableEq, Repr

/-- The `invoiceListData` state: current page of records plus pagination. -/
structure ListData where
  invoices : List Invoice
  pagination : Pagination
deriving DecidableEq, Repr

/-- Session state: the React `token` state plus whether `tokenManager` still
holds stored auth data.  `tokenManager.clearAuthData()` + `setToken(null)`
produce `clearedAuth`. -/
structure AuthState where
  token : Option String
  hasStoredAuth : Bool
deriving DecidableEq, Repr

/-- The session after teardown. -/
def clearedAuth : AuthState :=
  { token := none, hasStoredAuth := false }

/-- The slice of App component state the cache handlers read and write:
the legacy `invoices` array, the `invoiceListData` page, and the session. -/
structure AppState where
  invoices : List Invoice
  listData : Option ListData
  auth : AuthState
deriving DecidableEq, Repr

/-- Body of a transport response: empty, a JSON-parseable invoice payload,
or unparseable text. -/
inductive ResponseBody where
  | empty : ResponseBody
  | json (inv : Invoice) : ResponseBody
  | text (s : String) : ResponseBody
deriving DecidableEq, Repr

/-- Outcome of one `fetch` call. -/
structure HttpResponse where
  status : Nat
  body : ResponseBody
deriving DecidableEq, Repr

/-- Predicate for `response.ok`: status in the 2xx range. -/
def isOk (r : HttpResponse) : Prop :=
  200 ≤ r.status ∧ r.status < 300

instance (r : HttpResponse) : Decidable (isOk r) := by
  unfold isOk
  infer_instance

/-! ## Cache primitives (App.tsx optimistic helpers) -/

/-- Helper `optimisticallyAddInvoice`: prepend to the `invoices` array. -/
def optimisticallyAddInvoice (newInvoice : Invoice) (s : AppState) : AppState :=
  { s with invoices := newInvoice :: s.invoices }

/-- Helper `optimisticallyRemoveInvoice`: filter the `invoices` array by id. -/
def optimisticallyRemoveInvoice (id : ℚ) (s : AppState) : AppState :=
  { s with invoices := s.invoices.filter (fun inv => decide (inv.id ≠ id)) }

/-- Helper `optimisticallyUpdateInvoice`: replace the entry whose id matches. -/
def optimisticallyUpdateInvoice (updatedInvoice : Invoice) (s : AppState) : AppState :=
  { s with
    invoices := s.invoices.map
      (fun inv => if inv.id = updatedInvoice.id then updatedInvoice else inv) }

/-- Helper `silentlyAddInvoiceToList` (App.tsx lines 186-199): prepend to the page
and recompute the pagination from the incremented item count. -/
def silentlyAddInvoiceToList (newInvoice : Invoice) (d : ListData) : ListData :=
  { d with
    invoices := newInvoice :: d.invoices
    pagination := { d.pagination with
      totalItems := d.pagination.totalItems + 1
      totalPages := ((⌈(d.pagination.totalItems + 1) / d.pagination.pageSize⌉ : ℤ) : ℚ) } }

/-- Helper `silentlyUpdateInvoiceInList` (lines 174-184): map-replace by id,
pagination untouched. -/
def silentlyUpdateInvoiceInList (updatedInvoice : Invoice) (d : ListData) : ListData :=
  { d with
    invoices := d.invoices.map
      (fun inv => if inv.id = updatedInvoice.id then updatedInvoice else inv) }

/-- The list-data update inside `handleDeleteInvoice` (lines 552-568):
filter the page by id, decrement the item count, recompute page count. -/
def deleteFromListData (id : ℚ) (d : ListData) : ListData :=
  { d with
    invoices := d.invoices.filter (fun inv => decide (inv.id ≠ id))
    pagination := { d.pagination with
      totalItems := d.pagination.totalItems - 1
      totalPages := ((⌈(d.pagination.totalItems - 1) / d.pagination.pageSize⌉ : ℤ) : ℚ) } }

/-- The list-data update inside `handleBulkDelete` (lines 790-804): drop all
batched ids, subtract the batch size, recompute page count. -/
def bulkDeleteFromListData (ids : List ℚ) (d : ListData) : ListData :=
  { d with
    invoices := d.invoices.filter (fun inv => decide (inv.id ∉ ids))
    pagination := { d.pagination with
      totalItems := d.pagination.totalItems - ids.length
      totalPages := ((⌈(d.pagination.totalItems - ids.length) / d.pagination.pageSize⌉ : ℤ) : ℚ) } }

/-! ## Mutation handlers (App.tsx)

Each handler is the synchronous state transition the component performs for
one transport outcome.  `clock` stands for `Date.now()` at the moment of the
call and `rand` for `Math.random()` (a fraction in `[0,1)`); both are
explicit parameters because the source reads them ambiently. -/

/-- The temporary invoice synthesized by `handleCreateInvoice`
(lines 356-383).  Its id is `Date.now()` itself; line ids add the
`Math.random()` fraction. -/
def mkTempInvoice (clock rand : ℚ) (newInvoice : NewInvoice)
    (customerName : Option String) : Invoice :=
  { id := clock
    invoiceNumber := newInvoice.invoiceNumber
    date := newInvoice.date
    customerId := newInvoice.customerId
    customerName := customerName.getD "Unknown Customer"
    subTotal := newInvoice.subTotal
    vat := newInvoice.vat
    total := newInvoice.total
    status := newInvoice.status
    lines := newInvoice.lines.map (fun line =>
      { id := clock + rand
        description := line.description
        quantity := line.quantity
        unitPrice := line.unitPrice
        total := line.quantity * line.unitPrice
        invoiceId := clock
        taxRate := line.taxRate }) }

/-- Handler `handleCreateInvoice` (lines 356-441): optimistically prepend a
temporary invoice, then reconcile with the transport outcome.  401 clears
the session and removes the temp; any other non-2xx removes the temp; a 2xx
with a JSON body promotes the temp to the server record and silently adds it
to the list data; a 2xx with an empty or unparseable body just removes the
temp. -/
def handleCreateInvoice (clock rand : ℚ) (newInvoice : NewInvoice)
    (customerName : Option String) (resp : HttpResponse) (s : AppState) : AppState :=
  let temp := mkTempInvoice clock rand newInvoice customerName
  let s1 := optimisticallyAddInvoice temp s
  if resp.status = 401 then
    optimisticallyRemoveInvoice temp.id { s1 with auth := clearedAuth }
  else if ¬ isOk resp then
    optimisticallyRemoveInvoice temp.id s1
  else
    match resp.body with
    | ResponseBody.json createdInvoice =>
        let s2 := optimisticallyAddInvoice createdInvoice
          (optimisticallyRemoveInvoice temp.id s1)
        { s2 with listData := s2.listData.map (silentlyAddInvoiceToList createdInvoice) }
    | ResponseBody.text _ => optimisticallyRemoveInvoice temp.id s1
    | ResponseBody.empty => optimisticallyRemoveInvoice temp.id s1

/-- Handler `handleUpdateInvoice` (lines 443-530): look up the original record,
optimistically apply the edit, then reconcile.  401 restores the snapshot
and clears the session; other failures restore the snapshot; a 2xx with a
JSON body reconciles both states with the server record; a 2xx with an empty
or unparseable body keeps the optimistic version and mirrors it into the
list data. -/
def handleUpdateInvoice (clock rand : ℚ) (invoice : NewInvoice)
    (customerName : Option String) (resp : HttpResponse) (s : AppState) : AppState :=
  match invoice.id with
  | none => s
  | some invId =>
    match s.invoices.find? (fun inv => decide (inv.id = invId)) with
    | none => s
    | some originalInvoice =>
      let updatedInvoice : Invoice :=
        { originalInvoice with
          invoiceNumber := invoice.invoiceNumber
          date := invoice.date
          customerId := invoice.customerId
          customerName := customerName.getD originalInvoice.customerName
          subTotal := invoice.subTotal
          vat := invoice.vat
          total := invoice.total
          status := invoice.status
          lines := invoice.lines.map (fun line =>
            { id := clock + rand
              description := line.description
              quantity := line.quantity
              unitPrice := line.unitPrice
              total := line.quantity * line.unitPrice
              invoiceId := invId
              taxRate := line.taxRate }) }
      let s1 := optimisticallyUpdateInvoice updatedInvoice s
      if resp.status = 401 then
        optimisticallyUpdateInvoice originalInvoice { s1 with auth := clearedAuth }
      else if ¬ isOk resp then
        optimisticallyUpdateInvoice originalInvoice s1
      else
        match resp.body with
        | ResponseBody.json serverUpdatedInvoice =>
            let s2 := optimisticallyUpdateInvoice serverUpdatedInvoice s1
            { s2 with
              listData := s2.listData.map (silentlyUpdateInvoiceInList serverUpdatedInvoice) }
        | ResponseBody.text _ =>
            { s1 with
              listData := s1.listData.map (silentlyUpdateInvoiceInList updatedInvoice) }
        | ResponseBody.empty =>
            { s1 with
              listData := s1.listData.map (silentlyUpdateInvoiceInList updatedInvoice) }

/-- Handler `handleDeleteInvoice` (lines 532-619).  Returns the new state and, when
the page-repair refetch is issued, the `(page, pageSize)` query it carries
(taken from the pre-delete `invoiceListData` closure value).
`refreshResult` is the outcome of that refetch: `some d` for a 2xx JSON
page, `none` when it fails (the failure is swallowed). -/
def handleDeleteInvoice (id : ℚ) (resp : HttpResponse)
    (refreshResult : Option ListData) (s : AppState) : AppState × Option (ℚ × ℚ) :=
  let originalData := s.listData
  match s.invoices.find? (fun inv => decide (inv.id = id)) with
  | none => (s, none)
  | some originalInvoice =>
    let willPageBeIncomplete : Bool :=
      match s.listData with
      | some d =>
          decide ((d.invoices.length : ℚ) = d.pagination.pageSize) &&
          decide (d.pagination.page < d.pagination.totalPages)
      | none => false
    let s1 := optimisticallyRemoveInvoice id s
    let s2 := { s1 with listData := s1.listData.map (deleteFromListData id) }
    if resp.status = 401 then
      ({ optimisticallyAddInvoice originalInvoice s2 with
          listData := originalData, auth := clearedAuth }, none)
    else if ¬ isOk resp then
      ({ optimisticallyAddInvoice originalInvoice s2 with listData := originalData }, none)
    else if willPageBeIncomplete then
      match s.listData with
      | some d =>
          let s3 := match refreshResult with
            | some refreshedData => { s2 with listData := some refreshedData }
            | none => s2
          (s3, some (d.pagination.page, d.pagination.pageSize))
      | none => (s2, none)
    else
      (s2, none)

/-- Handler `handleBulkDelete` (lines 772-857).  `respOf` gives the transport
outcome of the DELETE call for each id; the batch fails as soon as any
response is a 401 or another non-2xx, in which case the pre-batch snapshot
is restored (the original records are re-prepended and `invoiceListData` is
set back to `originalData`).  A 401 on any call also clears the session. -/
def handleBulkDelete (ids : List ℚ) (respOf : ℚ → HttpResponse)
    (refreshResult : Option ListData) (s : AppState) : AppState × Option (ℚ × ℚ) :=
  let originalData := s.listData
  let originalInvoices := s.invoices.filter (fun inv => decide (inv.id ∈ ids))
  let willPageBeIncomplete : Bool :=
    match s.listData with
    | some d =>
        decide ((d.invoices.length : ℚ) = d.pagination.pageSize) &&
        decide (0 < ids.length) &&
        decide (d.pagination.page < d.pagination.totalPages)
    | none => false
  let invs1 := ids.foldl
    (fun l id => l.filter (fun inv => decide (inv.id ≠ id))) s.invoices
  let listData1 := s.listData.map (bulkDeleteFromListData ids)
  let anyFail := ids.any (fun id => decide (¬ isOk (respOf id)))
  let any401 := ids.any (fun id => decide ((respOf id).status = 401))
  if anyFail then
    ({ invoices := originalInvoices.foldl (fun l inv => inv :: l) invs1
       listData := originalData
       auth := if any401 then clearedAuth else s.auth }, none)
  else if willPageBeIncomplete then
    match s.listData with
    | some d =>
        let ld := match refreshResult with
          | some refreshedData => some refreshedData
          | none => listData1
        ({ invoices := invs1, listData := ld, auth := s.auth },
         some (d.pagination.page, d.pagination.pageSize))
    | none => ({ invoices := invs1, listData := listData1, auth := s.auth }, none)
  else
    ({ invoices := invs1, listData := listData1, auth := s.auth }, none)

/-! ## Cache mutation operations for the pagination invariant -/

/-- The three structural cache mutations that touch pagination. -/
inductive CacheOp where
  | addToList (inv : Invoice) : CacheOp
  | deleteOne (id : ℚ) : CacheOp
  | bulkDelete (ids : List ℚ) : CacheOp
deriving Repr

/-- Apply one cache mutation to the list data. -/
def applyCacheOp (op : CacheOp) (d : ListData) : ListData :=
  match op with
  | CacheOp.addToList inv => silentlyAddInvoiceToList inv d
  | CacheOp.deleteOne id => deleteFromListData id d
  | CacheOp.bulkDelete ids => bulkDeleteFromListData ids d

/-- Apply a sequence of cache mutations. -/
def applyCacheOps (d : ListData) (ops : List CacheOp) : ListData :=
  ops.foldl (fun t op => applyCacheOp op t) d

/-- The pagination coherence invariant: `totalPages == ceil(totalItems / pageSize)`. -/
def paginationConsistent (d : ListData) : Prop :=
  d.pagination.totalPages = ((⌈d.pagination.totalItems / d.pagination.pageSize⌉ : ℤ) : ℚ)

instance (d : ListData) : Decidable (paginationConsistent d) := by
  unfold paginationConsistent
  infer_instance

/-! ## Demo data used by the concrete witnesses -/

/-- A concrete create payload. -/
def demoDraft : NewInvoice :=
  { id := none, invoiceNumber := "INV-1", date := "2026-01-01", customerId := 3
    subTotal := 100, vat := 20, total := 120, status := 0, lines := [] }

/-- A concrete cached invoice with the server id 7. -/
def demoInvoice : Invoice :=
  { id := 7, invoiceNumber := "INV-7", date := "2026-01-02", customerId := 3
    customerName := "ACME", subTotal := 100, vat := 20, total := 120
    status := 0, lines := [] }

/-- A concrete page: 2 full pages of 5, currently on page 1. -/
def demoListData : ListData :=
  { invoices := [demoInvoice]
    pagination := { page := 1, pageSize := 5, totalItems := 10, totalPages := 2 } }

/-! ## Helper lemmas -/

/-- Every single cache mutation re-establishes the pagination invariant,
because it recomputes `totalPages` from the very `totalItems` it stores. -/
lemma applyCacheOp_consistent (op : CacheOp) (d : ListData) :
    paginationConsistent (applyCacheOp op d) := by
  cases op <;>
    simp [applyCacheOp, silentlyAddInvoiceToList, deleteFromListData,
      bulkDeleteFromListData, paginationConsistent]

/-- Rounding to cents is the identity on exact cent amounts. -/
lemma round2_cent (a : ℤ) : round2 ((a : ℚ) / 100) = (a : ℚ) / 100 := by
  unfold round2
  have h : (100 : ℚ) * ((a : ℚ) / 100) = (a : ℚ) := by
    rw [← mul_div_assoc]
    exact mul_div_cancel_left₀ _ (by norm_num : (100 : ℚ) ≠ 0)
  rw [h, round_intCast]

/-! ## C7: transition sets contain the no-op and decide `canTransition` -/

/-- C7: for every role and current status, `getValidStatusTransitions`
contains the current status itself, and `canTransitionToStatus` holds
exactly when the target belongs to the returned transition set. -/
theorem c7_transition_contract (userRole : String) (currentStatus targetStatus : ℚ) :
    currentStatus ∈ getValidStatusTransitions userRole currentStatus ∧
    (canTransitionToStatus userRole currentStatus targetStatus = true ↔
      targetStatus ∈ getValidStatusTransitions userRole currentStatus) := by
  constructor
  · unfold getValidStatusTransitions
    split_ifs with h1 h2 h3 h4 h5 h6 <;>
      simp_all [DRAFT, READY, AWAITING_CLEARANCE, VALIDATED, REJECTED]
  · simp [canTransitionToStatus]

/-! ## C10: delete capability is pointwise the modify capability -/

/-- C10: `canDeleteInvoice` returns exactly `canModifyInvoice` at every
role and status. -/
theorem c10_delete_eq_modify (userRole : String) (invoiceStatus : ℚ) :
    canDeleteInvoice userRole invoiceStatus = canModifyInvoice userRole invoiceStatus :=
  rfl

/-! ## C3: unknown roles -/

/-- C3 counterexample: the unrecognized role "Guest" is none of Admin,
Manager, Clerk, yet `getValidStatusTransitions` grants it the transition
Draft → Ready, a permitted transition beyond the no-op — the transition
table is not fail-closed for unknown roles. -/
theorem c3_counterexample :
    ("Guest" : String) ∉ (["Admin", "Manager", "Clerk"] : List String) ∧
    (READY ∈ getValidStatusTransitions "Guest" DRAFT ∧ READY ≠ DRAFT) := by
  refine ⟨by decide, ?_, by norm_num [READY, DRAFT]⟩
  show READY ∈ getValidStatusTransitions "Guest" DRAFT
  simp [getValidStatusTransitions, DRAFT, READY]

/-- C3 amended: querying with an unrecognized role never throws and yields
all four capabilities false (the capability predicates are fail-closed), but
`getValidStatusTransitions` only special-cases Clerk: an unrecognized role
receives exactly the Manager/Admin transition set for every status, not the
no-op-only set. -/
theorem c3_unknown_role (userRole : String) (invoiceStatus : ℚ)
    (h : userRole ∉ (["Admin", "Manager", "Clerk"] : List String)) :
    canModifyInvoice userRole invoiceStatus = false ∧
    canDeleteInvoice userRole invoiceStatus = false ∧
    canSubmitInvoice userRole invoiceStatus = false ∧
    canChangeInvoiceStatus userRole invoiceStatus = false ∧
    getValidStatusTransitions userRole invoiceStatus =
      getValidStatusTransitions "Admin" invoiceStatus := by
  simp only [List.mem_cons, List.not_mem_nil, or_false, not_or] at h
  obtain ⟨hAdmin, hManager, hClerk⟩ := h
  refine ⟨?_, ?_, ?_, ?_, ?_⟩
  · simp [canModifyInvoice, hAdmin, hManager, hClerk]
  · simp [canDeleteInvoice, canModifyInvoice, hAdmin, hManager, hClerk]
  · simp [canSubmitInvoice, hAdmin, hManager]
  · simp [canChangeInvoiceStatus, hAdmin, hManager, hClerk]
  · simp [getValidStatusTransitions, hClerk]

/-- C3 witness: the amended theorem applied at role "Guest", status Draft. -/
theorem c3_unknown_role_witness :
    ("Guest" : String) ∉ (["Admin", "Manager", "Clerk"] : List String) ∧
    (canModifyInvoice "Guest" DRAFT = false ∧
     canDeleteInvoice "Guest" DRAFT = false ∧
     canSubmitInvoice "Guest" DRAFT = false ∧
     canChangeInvoiceStatus "Guest" DRAFT = false ∧
     getValidStatusTransitions "Guest" DRAFT = getValidStatusTransitions "Admin" DRAFT) :=
  ⟨by decide, c3_unknown_role "Guest" DRAFT (by decide)⟩

/-! ## C8: temporary identity namespace -/

/-- C8 counterexample: with the millisecond clock at the integer
987654321, the temporary id synthesized for an optimistic create equals the
server-assignable integer id 987654321 — the temporary namespace
(`Date.now()` values) is not disjoint from server integer ids. -/
theorem c8_counterexample :
    (mkTempInvoice 987654321 (1/2) demoDraft none).id = ((987654321 : ℤ) : ℚ) := by
  norm_num [mkTempInvoice]

/-- C8 amended: the temporary id is exactly the clock reading `Date.now()`,
an integer-valued JS number drawn from the same namespace as server-assigned
integer ids; for every integer `n` a clock reading of `n` makes the
temporary id collide with a server id `n`, so disjointness is not
guaranteed. -/
theorem c8_temp_id_is_clock (n : ℤ) (rand : ℚ) (draft : NewInvoice)
    (customerName : Option String) :
    (mkTempInvoice (n : ℚ) rand draft customerName).id = (n : ℚ) :=
  rfl

/-! ## C9: monetary summary of `computeTotals` -/

/-- A single quote line: quantity 0.04 at unit price 0.1 with a 100% tax
rate.  Raw subtotal and tax are both 1/250 = 0.004. -/
def c9Lines : List NewLine :=
  [{ description := "item", quantity := 1/25, unitPrice := 1/10, taxRate := some 100 }]

/-- C9 counterexample: on `c9Lines` the computation rounds the subtotal and
tax to 0.00 each but rounds their raw sum 0.008 up to 0.01, so
`total ≠ subtotal + vat` (0.01 ≠ 0). -/
theorem c9_counterexample :
    (computeTotals c9Lines).total ≠ (computeTotals c9Lines).subTotal + (computeTotals c9Lines).vat := by
  have hsub : rawSubTotal c9Lines = 1/250 := by
    norm_num [rawSubTotal, c9Lines]
  have hvat : rawVat c9Lines = 1/250 := by
    norm_num [rawVat, c9Lines]
  have hr0 : round ((100 : ℚ) * (1/250)) = 0 := by
    norm_num [round_eq]
  have hr1 : round ((100 : ℚ) * (1/250 + 1/250)) = 1 := by
    norm_num [round_eq]
  simp only [computeTotals, round2, hsub, hvat, hr0, hr1]
  norm_num

/-- C9 amended: `subtotal` is the two-decimal rounding of
Σ quantity × unitPrice, `vat` the rounding of the summed line taxes, and
`total` the rounding of the raw (unrounded) sum of the two; consequently
`total = subtotal + vat` is only guaranteed when both raw components are
already exact cent amounts, and can differ by a cent otherwise. -/
theorem c9_totals (lines : List NewLine) :
    (computeTotals lines).subTotal = round2 (rawSubTotal lines) ∧
    (computeTotals lines).vat = round2 (rawVat lines) ∧
    (computeTotals lines).total = round2 (rawSubTotal lines + rawVat lines) ∧
    (∀ a b : ℤ, rawSubTotal lines = (a : ℚ) / 100 → rawVat lines = (b : ℚ) / 100 →
      (computeTotals lines).total = (computeTotals lines).subTotal + (computeTotals lines).vat) := by
  refine ⟨rfl, rfl, rfl, ?_⟩
  intro a b ha hb
  show round2 (rawSubTotal lines + rawVat lines)
      = round2 (rawSubTotal lines) + round2 (rawVat lines)
  rw [ha, hb, round2_cent, round2_cent]
  have hsum : (a : ℚ) / 100 + (b : ℚ) / 100 = ((a + b : ℤ) : ℚ) / 100 := by
    push_cast
    ring
  rw [hsum, round2_cent]

/-- A line with exact cent amounts: quantity 2, unit price 1.5, tax 20% —
raw subtotal 3.00 and raw tax 0.60. -/
def c9WitnessLines : List NewLine :=
  [{ description := "w", quantity := 2, unitPrice := 3/2, taxRate := some 20 }]

/-- C9 witness: the amended theorem applied to `c9WitnessLines`, whose raw
components are the cent amounts 300/100 and 60/100, so the additivity
conclusion holds there. -/
theorem c9_totals_witness :
    (rawSubTotal c9WitnessLines = ((300 : ℤ) : ℚ) / 100 ∧
     rawVat c9WitnessLines = ((60 : ℤ) : ℚ) / 100) ∧
    (computeTotals c9WitnessLines).total
      = (computeTotals c9WitnessLines).subTotal + (computeTotals c9WitnessLines).vat :=
  ⟨⟨by norm_num [rawSubTotal, c9WitnessLines], by norm_num [rawVat, c9WitnessLines]⟩,
    (c9_totals c9WitnessLines).2.2.2 300 60
      (by norm_num [rawSubTotal, c9WitnessLines])
      (by norm_num [rawVat, c9WitnessLines])⟩

/-! ## C1: the pagination invariant along mutation sequences -/

/-- C1: along every sequence of cache mutations (add-to-list, single delete,
bulk delete), from any starting page, the pagination metadata satisfies
`totalPages == ceil(totalItems / pageSize)` after each operation — i.e.
after every non-empty prefix of the sequence. -/
theorem c1_pagination_invariant (d : ListData) (ops : List CacheOp) (i : ℕ)
    (hi : i < ops.length) :
    paginationConsistent (applyCacheOps d (ops.take (i + 1))) := by
  have htake : ops.take (i + 1) = ops.take i ++ [ops[i]] := by
    rw [List.take_succ, List.getElem?_eq_getElem hi]
    rfl
  rw [applyCacheOps, htake, List.foldl_append]
  exact applyCacheOp_consistent _ _

/-- C1 witness: one add-to-list operation on the demo page (10 items, page
size 5): afterwards `totalItems = 11` and `totalPages = ⌈11/5⌉ = 3`. -/
theorem c1_pagination_invariant_witness :
    (0 : ℕ) < ([CacheOp.addToList demoInvoice] : List CacheOp).length ∧
    paginationConsistent
      (applyCacheOps demoListData (([CacheOp.addToList demoInvoice] : List CacheOp).take 1)) :=
  ⟨by decide, c1_pagination_invariant demoListData [CacheOp.addToList demoInvoice] 0 (by decide)⟩

/-! ## C4: create rollback on transport failure -/

/-- Filtering by "id differs from `tid`" is the identity on a list none of
whose records carries `tid`. -/
lemma filter_ne_id_of_fresh (tid : ℚ) (l : List Invoice)
    (h : ∀ inv ∈ l, inv.id ≠ tid) :
    List.filter (fun inv => decide (inv.id ≠ tid)) l = l := by
  induction l with
  | nil => rfl
  | cons b t ih =>
    rw [List.filter_cons_of_pos (by simpa using h b (List.mem_cons_self b t))]
    rw [ih (fun inv hi => h inv (List.mem_cons_of_mem b hi))]

/-- Prepending a record and then filtering its id away restores the
original list, provided the id was fresh. -/
lemma filter_cons_fresh (temp : Invoice) (l : List Invoice)
    (h : ∀ inv ∈ l, inv.id ≠ temp.id) :
    List.filter (fun inv => decide (inv.id ≠ temp.id)) (temp :: l) = l := by
  rw [List.filter_cons_of_neg (by simp)]
  exact filter_ne_id_of_fresh temp.id l h

/-- C4: whenever the create call fails (a 401 or any other non-2xx), the
handler removes the temporary record again, so the `invoices` record set
and the whole `invoiceListData` page (hence pagination) are exactly the
pre-create state, provided the synthesized temporary id does not collide
with a cached record id. -/
theorem c4_create_rollback (clock rand : ℚ) (newInvoice : NewInvoice)
    (customerName : Option String) (resp : HttpResponse) (s : AppState)
    (hfail : resp.status = 401 ∨ ¬ isOk resp)
    (hfresh : ∀ inv ∈ s.invoices, inv.id ≠ clock) :
    (handleCreateInvoice clock rand newInvoice customerName resp s).invoices = s.invoices ∧
    (handleCreateInvoice clock rand newInvoice customerName resp s).listData = s.listData := by
  have hid : (mkTempInvoice clock rand newInvoice customerName).id = clock := rfl
  have hfresh' : ∀ inv ∈ s.invoices,
      inv.id ≠ (mkTempInvoice clock rand newInvoice customerName).id := by
    simpa [hid] using hfresh
  simp only [handleCreateInvoice]
  split_ifs with h401 hok
  · constructor
    · simpa [optimisticallyRemoveInvoice, optimisticallyAddInvoice] using
        filter_cons_fresh _ s.invoices hfresh'
    · rfl
  · rcases hfail with h | h
    · exact absurd h h401
    · exact absurd hok h
  · constructor
    · simpa [optimisticallyRemoveInvoice, optimisticallyAddInvoice] using
        filter_cons_fresh _ s.invoices hfresh'
    · rfl

/-- A concrete pre-create state for the witness: one cached record (id 7),
the demo page, and a live session. -/
def c4State : AppState :=
  { invoices := [demoInvoice]
    listData := some demoListData
    auth := { token := some "jwt", hasStoredAuth := true } }

/-- C4 witness: a create at clock 100 against `c4State` that receives a 500
rolls the cache back to the pre-create state. -/
theorem c4_create_rollback_witness :
    (((⟨500, ResponseBody.empty⟩ : HttpResponse).status = 401 ∨
        ¬ isOk (⟨500, ResponseBody.empty⟩ : HttpResponse)) ∧
      ∀ inv ∈ c4State.invoices, inv.id ≠ (100 : ℚ)) ∧
    ((handleCreateInvoice 100 0 demoDraft none ⟨500, ResponseBody.empty⟩ c4State).invoices
        = c4State.invoices ∧
     (handleCreateInvoice 100 0 demoDraft none ⟨500, ResponseBody.empty⟩ c4State).listData
        = c4State.listData) :=
  ⟨⟨Or.inr (by norm_num [isOk]), by norm_num [c4State, demoInvoice]⟩,
    c4_create_rollback 100 0 demoDraft none ⟨500, ResponseBody.empty⟩ c4State
      (Or.inr (by norm_num [isOk])) (by norm_num [c4State, demoInvoice])⟩

/-! ## C5: update rollback on 401 -/

/-- A map whose function fixes every element of the list is the identity. -/
lemma list_map_self {α : Type _} (f : α → α) :
    ∀ (l : List α), (∀ a ∈ l, f a = a) → l.map f = l := by
  intro l h
  induction l with
  | nil => rfl
  | cons b t ih =>
    rw [List.map_cons, h b (List.mem_cons_self b t),
      ih (fun a ha => h a (List.mem_cons_of_mem b ha))]

/-- Replacing the unique record with id `X` by `upd` and then replacing it
back by the original element restores the list, assuming cached ids are
pairwise distinct and the original was found by id `X`. -/
lemma update_restore (X : ℚ) (orig upd : Invoice) (hupd : upd.id = X) :
    ∀ (l : List Invoice),
      l.find? (fun inv => decide (inv.id = X)) = some orig →
      (l.map Invoice.id).Nodup →
      (l.map (fun inv => if inv.id = upd.id then upd else inv)).map
        (fun inv => if inv.id = orig.id then orig else inv) = l := by
  intro l
  induction l with
  | nil =>
    intro hfind _
    simp at hfind
  | cons b t ih =>
    intro hfind hnodup
    have hnodup' : (t.map Invoice.id).Nodup := by
      rw [List.map_cons, List.nodup_cons] at hnodup
      exact hnodup.2
    by_cases hb : b.id = X
    · have hborg : b = orig := by
        rw [List.find?_cons_of_pos _ (by simpa using hb)] at hfind
        exact Option.some_inj.mp hfind
      have horig : orig.id = X := hborg ▸ hb
      have htail : ∀ inv ∈ t, inv.id ≠ X := by
        intro inv hi hix
        have hnotin : b.id ∉ t.map Invoice.id := by
          rw [List.map_cons, List.nodup_cons] at hnodup
          exact hnodup.1
        exact hnotin (by rw [hb, ← hix]; exact List.mem_map_of_mem Invoice.id hi)
      have h1 : (if b.id = upd.id then upd else b) = upd := if_pos (by rw [hb, hupd])
      have h2 : (if upd.id = orig.id then orig else upd) = orig := if_pos (by rw [hupd, horig])
      have ht1 : t.map (fun inv => if inv.id = upd.id then upd else inv) = t :=
        list_map_self _ t (fun a ha => if_neg (by rw [hupd]; exact htail a ha))
      have ht2 : t.map (fun inv => if inv.id = orig.id then orig else inv) = t :=
        list_map_self _ t (fun a ha => if_neg (by rw [horig]; exact htail a ha))
      simp only [List.map_cons, h1, h2, ht1, ht2]
      rw [← hborg]
    · have hfind' : t.find? (fun inv => decide (inv.id = X)) = some orig := by
        rw [List.find?_cons_of_neg _ (by simpa using hb)] at hfind
        exact hfind
      have horig : orig.id = X := by
        simpa using List.find?_some hfind'
      have hb1 : (if b.id = upd.id then upd else b) = b := if_neg (by rw [hupd]; exact hb)
      have hb2 : (if b.id = orig.id then orig else b) = b := if_neg (by rw [horig]; exact hb)
      simp only [List.map_cons, hb1, hb2]
      rw [ih hfind' hnodup']

/-- C5: when an update of the record with id `X` receives a 401, the
`invoices` cache is exactly the pre-update state (so the record at `X` is
the pre-update snapshot) and the session — React token and stored auth
data — is cleared.  Cached ids are assumed pairwise distinct. -/
theorem c5_update_401_rollback (clock rand : ℚ) (invoice : NewInvoice)
    (customerName : Option String) (resp : HttpResponse) (s : AppState)
    (X : ℚ) (orig : Invoice)
    (hid : invoice.id = some X)
    (hfind : s.invoices.find? (fun inv => decide (inv.id = X)) = some orig)
    (hnodup : (s.invoices.map Invoice.id).Nodup)
    (h401 : resp.status = 401) :
    (handleUpdateInvoice clock rand invoice customerName resp s).invoices = s.invoices ∧
    (handleUpdateInvoice clock rand invoice customerName resp s).auth = clearedAuth := by
  simp only [handleUpdateInvoice, hid, hfind]
  rw [if_pos h401]
  refine ⟨?_, rfl⟩
  exact update_restore X orig _ (by simpa using List.find?_some hfind) s.invoices hfind hnodup

/-- A pre-update state with two records (ids 7 and 9) for the witness. -/
def c5State : AppState :=
  { invoices := [demoInvoice, { demoInvoice with id := 9, invoiceNumber := "INV-9" }]
    listData := some demoListData
    auth := { token := some "jwt", hasStoredAuth := true } }

/-- An update payload targeting id 7. -/
def c5Draft : NewInvoice :=
  { demoDraft with id := some 7, invoiceNumber := "INV-7b", subTotal := 50, vat := 10, total := 60 }

/-- C5 witness: updating record 7 in `c5State` and receiving a 401 leaves
the record list unchanged and clears the session. -/
theorem c5_update_401_rollback_witness :
    (c5Draft.id = some (7 : ℚ) ∧
      c5State.invoices.find? (fun inv => decide (inv.id = (7 : ℚ))) = some demoInvoice ∧
      (c5State.invoices.map Invoice.id).Nodup ∧
      (⟨401, ResponseBody.empty⟩ : HttpResponse).status = 401) ∧
    ((handleUpdateInvoice 100 0 c5Draft none ⟨401, ResponseBody.empty⟩ c5State).invoices
        = c5State.invoices ∧
     (handleUpdateInvoice 100 0 c5Draft none ⟨401, ResponseBody.empty⟩ c5State).auth
        = clearedAuth) :=
  ⟨⟨rfl, by norm_num [c5State, demoInvoice, List.find?], by norm_num [c5State, demoInvoice], rfl⟩,
    c5_update_401_rollback 100 0 c5Draft none ⟨401, ResponseBody.empty⟩ c5State 7 demoInvoice
      rfl (by norm_num [c5State, demoInvoice, List.find?])
      (by norm_num [c5State, demoInvoice]) rfl⟩

/-! ## C6: page repair after deleting from a full page -/

/-- C6: deleting a record that is present in the cache, from a page whose
rendered length equals `pageSize` while `page < totalPages`, issues — once
the delete call succeeds — a page-refresh fetch carrying exactly the
pre-deletion `page` and `pageSize`. -/
theorem c6_page_repair (id : ℚ) (resp : HttpResponse) (refreshResult : Option ListData)
    (s : AppState) (orig : Invoice) (d : ListData)
    (hfind : s.invoices.find? (fun inv => decide (inv.id = id)) = some orig)
    (hld : s.listData = some d)
    (hfull : (d.invoices.length : ℚ) = d.pagination.pageSize)
    (hmore : d.pagination.page < d.pagination.totalPages)
    (hok : isOk resp) :
    (handleDeleteInvoice id resp refreshResult s).2
      = some (d.pagination.page, d.pagination.pageSize) := by
  have h401 : ¬ resp.status = 401 := by
    intro h
    rcases hok with ⟨-, hlt⟩
    omega
  have hincomplete :
      (decide ((d.invoices.length : ℚ) = d.pagination.pageSize) &&
        decide (d.pagination.page < d.pagination.totalPages)) = true := by
    rw [decide_eq_true hfull, decide_eq_true hmore]
    rfl
  simp only [handleDeleteInvoice, hfind, hld, hincomplete]
  rw [if_neg h401, if_neg (by simpa using hok)]
  simp

/-- A full single-record page (pageSize 1, 2 pages of items). -/
def c6ListData : ListData :=
  { invoices := [demoInvoice]
    pagination := { page := 1, pageSize := 1, totalItems := 2, totalPages := 2 } }

/-- A pre-delete state whose page is full while more pages exist. -/
def c6State : AppState :=
  { invoices := [demoInvoice]
    listData := some c6ListData
    auth := { token := some "jwt", hasStoredAuth := true } }

/-- C6 witness: deleting record 7 from `c6State` with a 204 issues a
refresh for page 1 with page size 1. -/
theorem c6_page_repair_witness :
    (c6State.invoices.find? (fun inv => decide (inv.id = (7 : ℚ))) = some demoInvoice ∧
      c6State.listData = some c6ListData ∧
      (c6ListData.invoices.length : ℚ) = c6ListData.pagination.pageSize ∧
      c6ListData.pagination.page < c6ListData.pagination.totalPages ∧
      isOk (⟨204, ResponseBody.empty⟩ : HttpResponse)) ∧
    (handleDeleteInvoice 7 ⟨204, ResponseBody.empty⟩ none c6State).2
      = some (c6ListData.pagination.page, c6ListData.pagination.pageSize) :=
  ⟨⟨by norm_num [c6State, demoInvoice, List.find?], rfl,
      by norm_num [c6ListData], by norm_num [c6ListData], by norm_num [isOk]⟩,
    c6_page_repair 7 ⟨204, ResponseBody.empty⟩ none c6State demoInvoice c6ListData
      (by norm_num [c6State, demoInvoice, List.find?]) rfl
      (by norm_num [c6ListData]) (by norm_num [c6ListData]) (by norm_num [isOk])⟩

/-! ## C2: bulk delete is all-or-nothing -/

/-- Folding cons over a list prepends its reversal. -/
lemma foldl_cons_reverse {α : Type _} :
    ∀ (l acc : List α), l.foldl (fun t a => a :: t) acc = l.reverse ++ acc := by
  intro l
  induction l with
  | nil => intro acc; rfl
  | cons b t ih =>
    intro acc
    rw [List.foldl_cons, ih, List.reverse_cons, List.append_assoc]
    rfl

/-- C2: if any single per-id delete call of a bulk delete fails (a 401 or
any other non-2xx), the final `invoiceListData` — record list and
pagination — is exactly the pre-batch snapshot, and every batched record
still present before the batch is back in the `invoices` cache (none is
left deleted, even when its own call succeeded). -/
theorem c2_bulk_delete_rollback (ids : List ℚ) (respOf : ℚ → HttpResponse)
    (refreshResult : Option ListData) (s : AppState)
    (hfail : ∃ id ∈ ids, ¬ isOk (respOf id)) :
    (handleBulkDelete ids respOf refreshResult s).1.listData = s.listData ∧
    ∀ inv ∈ s.invoices, inv.id ∈ ids →
      inv ∈ (handleBulkDelete ids respOf refreshResult s).1.invoices := by
  have hany : (ids.any (fun id => decide (¬ isOk (respOf id)))) = true := by
    rw [List.any_eq_true]
    obtain ⟨id, hid, hnok⟩ := hfail
    exact ⟨id, hid, decide_eq_true hnok⟩
  simp only [handleBulkDelete, hany, if_true]
  constructor
  · trivial
  · intro inv hmem hid
    show inv ∈ (s.invoices.filter (fun inv => decide (inv.id ∈ ids))).foldl (fun l inv => inv :: l) _
    rw [foldl_cons_reverse]
    exact List.mem_append.mpr
      (Or.inl (List.mem_reverse.mpr (List.mem_filter.mpr ⟨hmem, decide_eq_true hid⟩)))

/-- The transport outcome used by the C2 witness: every delete call answers
with a 500. -/
def c2RespOf : ℚ → HttpResponse :=
  fun _ => ⟨500, ResponseBody.empty⟩

/-- C2 witness: bulk-deleting [7] from the demo state while the call for 7
fails leaves `invoiceListData` at the pre-batch snapshot and record 7 in
the cache. -/
theorem c2_bulk_delete_rollback_witness :
    (∃ id ∈ ([7] : List ℚ), ¬ isOk (c2RespOf id)) ∧
    ((handleBulkDelete [7] c2RespOf none c4State).1.listData = c4State.listData ∧
      ∀ inv ∈ c4State.invoices, inv.id ∈ ([7] : List ℚ) →
        inv ∈ (handleBulkDelete [7] c2RespOf none c4State).1.invoices) :=
  ⟨⟨7, by simp, by norm_num [c2RespOf, isOk]⟩,
    c2_bulk_delete_rollback [7] c2RespOf none c4State
      ⟨7, by simp, by norm_num [c2RespOf, isOk]⟩⟩

end EFacture
